import Mathlib

/-!
Verification development for the expenses presentation-layer adapter
(src/app/(admin)/expenses/_hooks/use-expenses.ts): a shallow embedding of the
`useExpenses` hook, its five action functions and the field reshaping it
performs over the generated query/mutation hooks, together with theorems about
its toast notifications, error forwarding and payload pass-through.

Asynchronous execution is embedded by passing the underlying framework response
for one call explicitly (`Except Err ρ`); a resolved promise is `Except.ok`, a
rejected one `Except.error`.  The observable side effects of one action call
(the single underlying request it issues and the toasts it displays) are
recorded as an event list.
-/

namespace UseExpenses

/-- A normalized error object as delivered to the rejection handlers: the only
field the file reads is `message`. -/
structure Err where
  message : String
deriving DecidableEq, Repr

/-- An expense entity; its fields are opaque to this file, so it is embedded as
an opaque identifier. -/
structure Expense where
  id : String
deriving DecidableEq, Repr

/-- Payload for creating an expense (externally defined DTO, opaque here). -/
structure CreateHotelExpenseDto where
  payload : String
deriving DecidableEq, Repr

/-- Payload for updating an expense (externally defined DTO, opaque here). -/
structure UpdateHotelExpenseDto where
  payload : String
deriving DecidableEq, Repr

/-- Payload for deleting several expenses: an array of ids, as built by
`onDeleteExpenses` from its `ids` argument. -/
structure DeleteHotelExpenseDto where
  ids : List String
deriving DecidableEq, Repr

/-- An uploaded file (opaque to this file beyond its identity). -/
structure File where
  name : String
deriving DecidableEq, Repr

/-- The binary blob returned by the template download endpoint (opaque). -/
structure Blob where
  bytes : List Nat
deriving DecidableEq, Repr

/-- Modelled from the spec: the server response envelope of the CRUD endpoints
is defined in `../_services/expensesApi`, which is not under src/.  The file
only reads its `data` field (`response.data`), so it is embedded as an envelope
holding a `data` field. -/
structure BaseApiResponse (α : Type) where
  data : α
deriving DecidableEq, Repr

/-- Modelled from the spec: the import endpoint response type is defined in
`../_services/expensesApi`, which is not under src/.  The file reads its
`message` field (which may be absent) and returns the whole object, so it is
embedded as a `message` plus an opaque remainder. -/
structure ImportResponse where
  message : Option String
  rest : String
deriving DecidableEq, Repr

/-- A toast notification displayed to the user. -/
inductive Toast where
  | loading (msg : String)
  | success (msg : String)
  | error (msg : String)
deriving DecidableEq, Repr

/-- The argument with which an underlying generated mutation or lazy query is
invoked: exactly what the source passes (`createExpense(data)`,
`updateExpense({ id, body: data })`, `deleteExpenses(deleteDto)`,
`importExpenses({ file, continueOnError })`, `downloadTemplate()`). -/
inductive Request where
  | createExpense (data : CreateHotelExpenseDto)
  | updateExpense (id : String) (body : UpdateHotelExpenseDto)
  | deleteExpenses (dto : DeleteHotelExpenseDto)
  | importExpenses (file : File) (continueOnError : Bool)
  | downloadTemplate
deriving DecidableEq, Repr

/-- An observable event of one action call: an underlying request being issued
or a toast being displayed, in order. -/
inductive Event where
  | request (r : Request)
  | toast (t : Toast)
deriving DecidableEq, Repr

/-- Decidable equality for embedded promise outcomes. -/
instance exceptDecEq {ε α : Type} [DecidableEq ε] [DecidableEq α] :
    DecidableEq (Except ε α) := fun a b =>
  match a, b with
  | Except.ok x, Except.ok y =>
    if h : x = y then isTrue (by rw [h])
    else isFalse (fun he => by cases he; exact h rfl)
  | Except.ok _, Except.error _ => isFalse (fun h => Except.noConfusion h)
  | Except.error _, Except.ok _ => isFalse (fun h => Except.noConfusion h)
  | Except.error x, Except.error y =>
    if h : x = y then isTrue (by rw [h])
    else isFalse (fun he => by cases he; exact h rfl)

/-- The outcome of one action call: its ordered observable events and the value
the returned promise settles with (`Except.error` embeds rejection). -/
structure ActionRun (α : Type) where
  events : List Event
  returned : Except Err α
deriving DecidableEq, Repr

/-- Modelled from the spec: `runAndHandleError` (from `@/utils/baseQuery`, not
under src/) runs the given async action; per the spec, "errors are simply
forwarded from the underlying library to a notification display; no taxonomy or
recovery policy is defined", so it forwards the result of the action
unchanged. -/
def runAndHandleError {α : Type} (action : Except Err α) : Except Err α :=
  action

/-- The toast behaviour of `toast.promise(promise, { loading, success, error })`
from the sonner library: a loading toast, then exactly one terminal toast, the
success message on resolution and the error message (computed from the
rejection reason) on rejection. -/
def toastPromise {α : Type} (result : Except Err α) (loadingMsg : String)
    (successMsg : α → String) (errorMsg : Err → String) : List Toast :=
  Toast.loading loadingMsg ::
    (match result with
      | Except.ok a => [Toast.success (successMsg a)]
      | Except.error e => [Toast.error (errorMsg e)])

/-- JavaScript string coalescing `m || fallback` applied to a possibly absent
string: the fallback is used when the string is absent or falsy (empty). -/
def jsStringOr (m : Option String) (fallback : String) : String :=
  match m with
  | none => fallback
  | some s => if s = "" then fallback else s

/-- Embedding of `onCreateExpense(data)`: invokes `createExpense(data)`, whose
framework outcome for this call is `result`; the promise resolves with
`response.data`, and `toast.promise` shows "Creando gasto..." then either
"Gasto creado con éxito" or `err.message`.  The function returns the same
promise. -/
def onCreateExpense (data : CreateHotelExpenseDto)
    (result : Except Err (BaseApiResponse Expense)) : ActionRun Expense :=
  let promise := runAndHandleError (result.map (fun r => r.data))
  { events := Event.request (Request.createExpense data) ::
      (toastPromise promise "Creando gasto..."
        (fun _ => "Gasto creado con éxito") (fun err => err.message)).map
        Event.toast,
    returned := promise }

/-- Embedding of `onUpdateExpense(id, data)`: invokes
`updateExpense({ id, body: data })`; the promise resolves with `response.data`,
and `toast.promise` shows "Actualizando gasto..." then either
"Gasto actualizado exitosamente" or `err.message`. -/
def onUpdateExpense (id : String) (data : UpdateHotelExpenseDto)
    (result : Except Err (BaseApiResponse Expense)) : ActionRun Expense :=
  let promise := runAndHandleError (result.map (fun r => r.data))
  { events := Event.request (Request.updateExpense id data) ::
      (toastPromise promise "Actualizando gasto..."
        (fun _ => "Gasto actualizado exitosamente") (fun err => err.message)).map
        Event.toast,
    returned := promise }

/-- Embedding of `onDeleteExpenses(ids)`: builds `deleteDto = { ids }` and
invokes `deleteExpenses(deleteDto)`; the promise resolves with `response.data`,
and `toast.promise` shows "Eliminando gastos..." then either
"Gastos eliminados con éxito" or `err.message`. -/
def onDeleteExpenses (ids : List String)
    (result : Except Err (BaseApiResponse (List Expense))) :
    ActionRun (List Expense) :=
  let deleteDto : DeleteHotelExpenseDto := { ids := ids }
  let promise := runAndHandleError (result.map (fun r => r.data))
  { events := Event.request (Request.deleteExpenses deleteDto) ::
      (toastPromise promise "Eliminando gastos..."
        (fun _ => "Gastos eliminados con éxito") (fun err => err.message)).map
        Event.toast,
    returned := promise }

/-- Embedding of `onImportExpenses(file, continueOnError)`: invokes
`importExpenses({ file, continueOnError })`; the promise resolves with the
whole response, and `toast.promise` shows "Importando gastos..." then either
`data.message || "Importación completada con éxito"` or `err.message`. -/
def onImportExpenses (file : File) (continueOnError : Bool)
    (result : Except Err ImportResponse) : ActionRun ImportResponse :=
  let promise := runAndHandleError result
  { events := Event.request (Request.importExpenses file continueOnError) ::
      (toastPromise promise "Importando gastos..."
        (fun data => jsStringOr data.message "Importación completada con éxito")
        (fun err => err.message)).map Event.toast,
    returned := promise }

/-- Embedding of calling `onImportExpenses(file)` with the second argument
omitted: the TypeScript signature declares `continueOnError: boolean = false`,
so the omitted argument defaults to `false`. -/
def onImportExpensesDefault (file : File)
    (result : Except Err ImportResponse) : ActionRun ImportResponse :=
  onImportExpenses file false result

/-- Embedding of `onDownloadTemplate()`: shows a loading toast
"Descargando plantilla...", invokes `downloadTemplate().unwrap()` and, on
success, performs the browser download of the blob (DOM object-URL creation and
anchor click, side effects outside this event vocabulary), replaces the toast
with "Plantilla descargada con éxito" and resolves with `true`; on failure the
catch block replaces the toast with "Error al descargar: " plus the error
message and resolves with `false`.  The returned promise never rejects. -/
def onDownloadTemplate (result : Except Err Blob) : ActionRun Bool :=
  match result with
  | Except.ok _blob =>
    { events := [Event.toast (Toast.loading "Descargando plantilla..."),
        Event.request Request.downloadTemplate,
        Event.toast (Toast.success "Plantilla descargada con éxito")],
      returned := Except.ok true }
  | Except.error e =>
    { events := [Event.toast (Toast.loading "Descargando plantilla..."),
        Event.request Request.downloadTemplate,
        Event.toast (Toast.error ("Error al descargar: " ++ e.message))],
      returned := Except.ok false }

/-- The status fields destructured from a generated query hook
(`data`, `error`, `isLoading`, `isSuccess`). -/
structure QueryState (α : Type) where
  data : Option α
  error : Option Err
  isLoading : Bool
  isSuccess : Bool
deriving DecidableEq, Repr

/-- The status fields destructured from a generated mutation hook
(`isSuccess`, `isLoading`). -/
structure MutationState where
  isSuccess : Bool
  isLoading : Bool
deriving DecidableEq, Repr

/-- The current states of the generated hooks the file destructures:
`useGetAllExpensesQuery` (with the identity of its `refetch` callback carried
as an opaque token), `useGetExpenseByIdQuery`, the four mutation hook state
objects, and the `isLoading` flag of `useLazyDownloadExpenseTemplateQuery`. -/
structure GeneratedHooks where
  getAllExpenses : QueryState (List Expense)
  refetchToken : Nat
  getExpenseById : String → QueryState Expense
  createState : MutationState
  updateState : MutationState
  deleteState : MutationState
  importState : MutationState
  downloadTemplateLoading : Bool

/-- The object returned by the nested hook `useGetExpenseById(id)`: the
underlying `data`, `isLoading`, `error` renamed to `expense`, `isLoading`,
`error`. -/
structure GetExpenseByIdResult where
  expense : Option Expense
  isLoading : Bool
  error : Option Err
deriving DecidableEq, Repr

/-- The object returned by `useExpenses`: query fields, the nested get-by-id
hook, the five action functions (each given here as a function of its
arguments and of the framework outcome for that call), and the mutation status
flags. -/
structure UseExpensesReturn where
  expensesList : Option (List Expense)
  expensesError : Option Err
  isLoadingExpenses : Bool
  isSuccessExpenses : Bool
  refetchExpenses : Nat
  useGetExpenseById : String → GetExpenseByIdResult
  onCreateExpense : CreateHotelExpenseDto →
    Except Err (BaseApiResponse Expense) → ActionRun Expense
  onUpdateExpense : String → UpdateHotelExpenseDto →
    Except Err (BaseApiResponse Expense) → ActionRun Expense
  onDeleteExpenses : List String →
    Except Err (BaseApiResponse (List Expense)) → ActionRun (List Expense)
  onImportExpenses : File → Bool →
    Except Err ImportResponse → ActionRun ImportResponse
  onDownloadTemplate : Except Err Blob → ActionRun Bool
  isSuccessCreateExpense : Bool
  isLoadingCreateExpense : Bool
  isSuccessUpdateExpense : Bool
  isLoadingUpdateExpense : Bool
  isSuccessDeleteExpenses : Bool
  isLoadingDeleteExpenses : Bool
  isSuccessImportExpenses : Bool
  isLoadingImportExpenses : Bool
  isLoadingDownloadTemplate : Bool

/-- Embedding of the `useExpenses` hook body: destructures the generated hooks,
defines the nested `useGetExpenseById` and the five action functions, and
returns them together with the renamed status fields. -/
def useExpenses (h : GeneratedHooks) : UseExpensesReturn :=
  { expensesList := h.getAllExpenses.data,
    expensesError := h.getAllExpenses.error,
    isLoadingExpenses := h.getAllExpenses.isLoading,
    isSuccessExpenses := h.getAllExpenses.isSuccess,
    refetchExpenses := h.refetchToken,
    useGetExpenseById := fun id =>
      { expense := (h.getExpenseById id).data,
        isLoading := (h.getExpenseById id).isLoading,
        error := (h.getExpenseById id).error },
    onCreateExpense := onCreateExpense,
    onUpdateExpense := onUpdateExpense,
    onDeleteExpenses := onDeleteExpenses,
    onImportExpenses := onImportExpenses,
    onDownloadTemplate := onDownloadTemplate,
    isSuccessCreateExpense := h.createState.isSuccess,
    isLoadingCreateExpense := h.createState.isLoading,
    isSuccessUpdateExpense := h.updateState.isSuccess,
    isLoadingUpdateExpense := h.updateState.isLoading,
    isSuccessDeleteExpenses := h.deleteState.isSuccess,
    isLoadingDeleteExpenses := h.deleteState.isLoading,
    isSuccessImportExpenses := h.importState.isSuccess,
    isLoadingImportExpenses := h.importState.isLoading,
    isLoadingDownloadTemplate := h.downloadTemplateLoading }

/-- The underlying requests issued during a run, in order. -/
def requestsOf (es : List Event) : List Request :=
  es.filterMap (fun e => match e with
    | Event.request r => some r
    | Event.toast _ => none)

/-- Whether a toast is terminal (success or error, as opposed to loading). -/
def Toast.isTerminal : Toast → Bool
  | Toast.loading _ => false
  | Toast.success _ => true
  | Toast.error _ => true

/-- The terminal toasts displayed during a run, in order. -/
def terminalToastsOf (es : List Event) : List Toast :=
  es.filterMap (fun e => match e with
    | Event.request _ => none
    | Event.toast t => if t.isTerminal then some t else none)

/-- The loading toasts displayed during a run, in order. -/
def loadingToastsOf (es : List Event) : List Toast :=
  es.filterMap (fun e => match e with
    | Event.request _ => none
    | Event.toast t => if t.isTerminal then none else some t)

/-- Whether a toast reports success. -/
def Toast.isSuccessToast : Toast → Bool
  | Toast.success _ => true
  | _ => false

/-- Whether an embedded promise outcome is a resolution. -/
def exceptOk {α : Type} : Except Err α → Bool
  | Except.ok _ => true
  | Except.error _ => false

/-- One invocation of one of the five action functions: its arguments together
with the framework outcome of the underlying call. -/
inductive ActionInv where
  | create (data : CreateHotelExpenseDto)
      (result : Except Err (BaseApiResponse Expense))
  | update (id : String) (data : UpdateHotelExpenseDto)
      (result : Except Err (BaseApiResponse Expense))
  | delete (ids : List String)
      (result : Except Err (BaseApiResponse (List Expense)))
  | importFile (file : File) (continueOnError : Bool)
      (result : Except Err ImportResponse)
  | download (result : Except Err Blob)

/-- The outcome of one invocation, tagged by which action ran. -/
inductive ActionOut where
  | create (run : ActionRun Expense)
  | update (run : ActionRun Expense)
  | delete (run : ActionRun (List Expense))
  | importFile (run : ActionRun ImportResponse)
  | download (run : ActionRun Bool)
deriving DecidableEq

/-- Dispatch one invocation to the corresponding action function of the file. -/
def step : ActionInv → ActionOut
  | ActionInv.create d r => ActionOut.create (onCreateExpense d r)
  | ActionInv.update i d r => ActionOut.update (onUpdateExpense i d r)
  | ActionInv.delete ids r => ActionOut.delete (onDeleteExpenses ids r)
  | ActionInv.importFile f c r => ActionOut.importFile (onImportExpenses f c r)
  | ActionInv.download r => ActionOut.download (onDownloadTemplate r)

/-- The events of a tagged outcome. -/
def ActionOut.events : ActionOut → List Event
  | ActionOut.create run => run.events
  | ActionOut.update run => run.events
  | ActionOut.delete run => run.events
  | ActionOut.importFile run => run.events
  | ActionOut.download run => run.events

/-- Whether the underlying framework outcome of an invocation was a success. -/
def ActionInv.resultOk : ActionInv → Bool
  | ActionInv.create _ r => exceptOk r
  | ActionInv.update _ _ r => exceptOk r
  | ActionInv.delete _ r => exceptOk r
  | ActionInv.importFile _ _ r => exceptOk r
  | ActionInv.download r => exceptOk r

/-- Running a sequence of action invocations against the (pure) underlying
framework: the hook body holds no mutable state of its own, so each invocation
is dispatched independently. -/
def runActions (invs : List ActionInv) : List ActionOut :=
  invs.map step

end UseExpenses

namespace UseExpenses

/-- C4: useExpenses only reshapes fields of the generated hooks: every
query/mutation status field it returns equals the corresponding field of the
underlying generated hook unchanged, and useGetExpenseById(id) returns exactly
the data/isLoading/error of useGetExpenseByIdQuery(id) renamed to
expense/isLoading/error. -/
theorem useExpenses_fields_pass_through (h : GeneratedHooks) :
    (useExpenses h).expensesList = h.getAllExpenses.data ∧
    (useExpenses h).expensesError = h.getAllExpenses.error ∧
    (useExpenses h).isLoadingExpenses = h.getAllExpenses.isLoading ∧
    (useExpenses h).isSuccessExpenses = h.getAllExpenses.isSuccess ∧
    (useExpenses h).refetchExpenses = h.refetchToken ∧
    (useExpenses h).isSuccessCreateExpense = h.createState.isSuccess ∧
    (useExpenses h).isLoadingCreateExpense = h.createState.isLoading ∧
    (useExpenses h).isSuccessUpdateExpense = h.updateState.isSuccess ∧
    (useExpenses h).isLoadingUpdateExpense = h.updateState.isLoading ∧
    (useExpenses h).isSuccessDeleteExpenses = h.deleteState.isSuccess ∧
    (useExpenses h).isLoadingDeleteExpenses = h.deleteState.isLoading ∧
    (useExpenses h).isSuccessImportExpenses = h.importState.isSuccess ∧
    (useExpenses h).isLoadingImportExpenses = h.importState.isLoading ∧
    (useExpenses h).isLoadingDownloadTemplate = h.downloadTemplateLoading ∧
    (∀ id, (useExpenses h).useGetExpenseById id =
      { expense := (h.getExpenseById id).data,
        isLoading := (h.getExpenseById id).isLoading,
        error := (h.getExpenseById id).error }) := by
  refine ⟨rfl, rfl, rfl, rfl, rfl, rfl, rfl, rfl, rfl, rfl, rfl, rfl, rfl,
    rfl, fun id => rfl⟩

/-- C3: the object returned by useExpenses covers all seven expense
operations: the list query fields (with refetch), the get-by-id hook, and the
five actions, each action being the corresponding action function of the file;
and every mutation among them displays a toast notification on every call. -/
theorem useExpenses_covers_operations (h : GeneratedHooks) :
    ((useExpenses h).expensesList = h.getAllExpenses.data ∧
     (useExpenses h).expensesError = h.getAllExpenses.error ∧
     (useExpenses h).isLoadingExpenses = h.getAllExpenses.isLoading ∧
     (useExpenses h).isSuccessExpenses = h.getAllExpenses.isSuccess ∧
     (useExpenses h).refetchExpenses = h.refetchToken) ∧
    (∀ id, ((useExpenses h).useGetExpenseById id).expense =
      (h.getExpenseById id).data) ∧
    (useExpenses h).onCreateExpense = onCreateExpense ∧
    (useExpenses h).onUpdateExpense = onUpdateExpense ∧
    (useExpenses h).onDeleteExpenses = onDeleteExpenses ∧
    (useExpenses h).onImportExpenses = onImportExpenses ∧
    (useExpenses h).onDownloadTemplate = onDownloadTemplate ∧
    (∀ d r, Event.toast (Toast.loading "Creando gasto...") ∈
      ((useExpenses h).onCreateExpense d r).events) ∧
    (∀ i d r, Event.toast (Toast.loading "Actualizando gasto...") ∈
      ((useExpenses h).onUpdateExpense i d r).events) ∧
    (∀ ids r, Event.toast (Toast.loading "Eliminando gastos...") ∈
      ((useExpenses h).onDeleteExpenses ids r).events) ∧
    (∀ f c r, Event.toast (Toast.loading "Importando gastos...") ∈
      ((useExpenses h).onImportExpenses f c r).events) := by
  refine ⟨⟨rfl, rfl, rfl, rfl, rfl⟩, fun id => rfl, rfl, rfl, rfl, rfl, rfl,
    ?_, ?_, ?_, ?_⟩ <;>
    intros <;>
    simp [useExpenses, onCreateExpense, onUpdateExpense, onDeleteExpenses,
      onImportExpenses, toastPromise]

/-- C6: no action function validates or alters its input beyond its type
shape: for every input (the empty ids list included), exactly the given
payload is passed to the underlying mutation, shaped as the source shapes it. -/
theorem actions_pass_payload_unmodified :
    (∀ data r, requestsOf (onCreateExpense data r).events =
      [Request.createExpense data]) ∧
    (∀ id data r, requestsOf (onUpdateExpense id data r).events =
      [Request.updateExpense id data]) ∧
    (∀ ids r, requestsOf (onDeleteExpenses ids r).events =
      [Request.deleteExpenses { ids := ids }]) ∧
    (∀ file c r, requestsOf (onImportExpenses file c r).events =
      [Request.importExpenses file c]) := by
  refine ⟨?_, ?_, ?_, ?_⟩ <;> intros <;> rename_i r <;> cases r <;> rfl

/-- C9: when onImportExpenses is called with only a file and no second
argument, the TypeScript default applies and the import mutation is invoked
with continueOnError equal to false. -/
theorem onImportExpenses_default_continueOnError (file : File)
    (r : Except Err ImportResponse) :
    requestsOf (onImportExpensesDefault file r).events =
      [Request.importExpenses file false] := by
  cases r <;> rfl

/-- C10: on success, onCreateExpense, onUpdateExpense and onDeleteExpenses
resolve with the data field of the response envelope, whereas onImportExpenses
resolves with the entire response object. -/
theorem actions_resolution_values :
    (∀ data resp, (onCreateExpense data (Except.ok resp)).returned =
      Except.ok resp.data) ∧
    (∀ id data resp, (onUpdateExpense id data (Except.ok resp)).returned =
      Except.ok resp.data) ∧
    (∀ ids resp, (onDeleteExpenses ids (Except.ok resp)).returned =
      Except.ok resp.data) ∧
    (∀ file c resp, (onImportExpenses file c (Except.ok resp)).returned =
      Except.ok resp) := by
  exact ⟨fun _ _ => rfl, fun _ _ _ => rfl, fun _ _ => rfl, fun _ _ _ => rfl⟩

/-- C8: onDownloadTemplate never rejects: it resolves with true exactly when
the underlying download succeeded and false when it failed, whereas the four
mutation actions reject with the underlying error when the mutation fails. -/
theorem onDownloadTemplate_never_rejects :
    (∀ r, (onDownloadTemplate r).returned = Except.ok (exceptOk r)) ∧
    (∀ data e, (onCreateExpense data (Except.error e)).returned =
      Except.error e) ∧
    (∀ id data e, (onUpdateExpense id data (Except.error e)).returned =
      Except.error e) ∧
    (∀ ids e, (onDeleteExpenses ids (Except.error e)).returned =
      Except.error e) ∧
    (∀ file c e, (onImportExpenses file c (Except.error e)).returned =
      Except.error e) := by
  refine ⟨fun r => ?_, fun _ _ => rfl, fun _ _ _ => rfl, fun _ _ => rfl,
    fun _ _ _ => rfl⟩
  cases r <;> rfl

/-- C1 counterexample: onDownloadTemplate does not forward a failure
unmodified: at the concrete error with message "boom", the returned promise
resolves with false instead of rejecting with that error, and no toast
displaying exactly "boom" is shown (the toast text is prefixed). -/
theorem download_error_not_forwarded :
    (onDownloadTemplate (Except.error { message := "boom" })).returned ≠
      Except.error { message := "boom" } ∧
    Event.toast (Toast.error "boom") ∉
      (onDownloadTemplate (Except.error { message := "boom" })).events := by
  decide

/-- C1 (amended): for onCreateExpense, onUpdateExpense, onDeleteExpenses and
onImportExpenses, a failure e is forwarded unmodified: the error toast
displays e.message and the returned promise rejects with that same error;
onDownloadTemplate instead catches the failure, displays a toast with the
prefix "Error al descargar: " before e.message, and resolves with false. -/
theorem errors_forwarded_unmodified :
    (∀ data e, (onCreateExpense data (Except.error e)).returned =
        Except.error e ∧
      Event.toast (Toast.error e.message) ∈
        (onCreateExpense data (Except.error e)).events) ∧
    (∀ id data e, (onUpdateExpense id data (Except.error e)).returned =
        Except.error e ∧
      Event.toast (Toast.error e.message) ∈
        (onUpdateExpense id data (Except.error e)).events) ∧
    (∀ ids e, (onDeleteExpenses ids (Except.error e)).returned =
        Except.error e ∧
      Event.toast (Toast.error e.message) ∈
        (onDeleteExpenses ids (Except.error e)).events) ∧
    (∀ file c e, (onImportExpenses file c (Except.error e)).returned =
        Except.error e ∧
      Event.toast (Toast.error e.message) ∈
        (onImportExpenses file c (Except.error e)).events) ∧
    (∀ e, (onDownloadTemplate (Except.error e)).returned = Except.ok false ∧
      Event.toast (Toast.error ("Error al descargar: " ++ e.message)) ∈
        (onDownloadTemplate (Except.error e)).events) := by
  refine ⟨fun data e => ⟨rfl, ?_⟩, fun id data e => ⟨rfl, ?_⟩,
    fun ids e => ⟨rfl, ?_⟩, fun file c e => ⟨rfl, ?_⟩,
    fun e => ⟨rfl, ?_⟩⟩ <;>
    simp [onCreateExpense, onUpdateExpense, onDeleteExpenses, onImportExpenses,
      onDownloadTemplate, toastPromise, runAndHandleError, Except.map]

/-- C2: every invocation of an action function issues exactly one underlying
request and displays exactly one terminal toast, which is a success toast
exactly when the underlying outcome succeeded (and an error toast exactly when
it failed) — never both. -/
theorem one_request_one_terminal_toast (inv : ActionInv) :
    (requestsOf (step inv).events).length = 1 ∧
    (terminalToastsOf (step inv).events).length = 1 ∧
    (terminalToastsOf (step inv).events).all Toast.isSuccessToast =
      inv.resultOk := by
  cases inv <;> rename_i r <;> cases r <;>
    exact ⟨rfl, rfl, rfl⟩

/-- C5 counterexample: when the import response carries a present but empty
message, the success toast shows the fixed fallback text rather than the
response message: JavaScript || treats the empty string as falsy. -/
theorem import_empty_message_uses_fallback :
    Event.toast (Toast.success "") ∉
      (onImportExpenses { name := "gastos.xlsx" } false
        (Except.ok { message := some "", rest := "r" })).events ∧
    Event.toast (Toast.success "Importación completada con éxito") ∈
      (onImportExpenses { name := "gastos.xlsx" } false
        (Except.ok { message := some "", rest := "r" })).events := by
  decide

/-- C5 (amended): each action displays its fixed loading toast and then the
corresponding terminal toast: create, update and delete show their fixed
success texts, import shows the response message, with the fallback text
"Importación completada con éxito" when the message is absent or empty, and
on failure each shows the error message. -/
theorem action_toast_sequences :
    (∀ data x, (onCreateExpense data (Except.ok x)).events =
      [Event.request (Request.createExpense data),
       Event.toast (Toast.loading "Creando gasto..."),
       Event.toast (Toast.success "Gasto creado con éxito")]) ∧
    (∀ data e, (onCreateExpense data (Except.error e)).events =
      [Event.request (Request.createExpense data),
       Event.toast (Toast.loading "Creando gasto..."),
       Event.toast (Toast.error e.message)]) ∧
    (∀ id data x, (onUpdateExpense id data (Except.ok x)).events =
      [Event.request (Request.updateExpense id data),
       Event.toast (Toast.loading "Actualizando gasto..."),
       Event.toast (Toast.success "Gasto actualizado exitosamente")]) ∧
    (∀ id data e, (onUpdateExpense id data (Except.error e)).events =
      [Event.request (Request.updateExpense id data),
       Event.toast (Toast.loading "Actualizando gasto..."),
       Event.toast (Toast.error e.message)]) ∧
    (∀ ids x, (onDeleteExpenses ids (Except.ok x)).events =
      [Event.request (Request.deleteExpenses { ids := ids }),
       Event.toast (Toast.loading "Eliminando gastos..."),
       Event.toast (Toast.success "Gastos eliminados con éxito")]) ∧
    (∀ ids e, (onDeleteExpenses ids (Except.error e)).events =
      [Event.request (Request.deleteExpenses { ids := ids }),
       Event.toast (Toast.loading "Eliminando gastos..."),
       Event.toast (Toast.error e.message)]) ∧
    (∀ file c resp, (onImportExpenses file c (Except.ok resp)).events =
      [Event.request (Request.importExpenses file c),
       Event.toast (Toast.loading "Importando gastos..."),
       Event.toast (Toast.success
         (jsStringOr resp.message "Importación completada con éxito"))]) ∧
    (∀ file c e, (onImportExpenses file c (Except.error e)).events =
      [Event.request (Request.importExpenses file c),
       Event.toast (Toast.loading "Importando gastos..."),
       Event.toast (Toast.error e.message)]) := by
  exact ⟨fun _ _ => rfl, fun _ _ => rfl, fun _ _ _ => rfl, fun _ _ _ => rfl,
    fun _ _ => rfl, fun _ _ => rfl, fun _ _ _ => rfl, fun _ _ _ => rfl⟩

/-- C7: the hook keeps no state of its own between calls: running any sequence
of action invocations dispatches each invocation independently, so every
output is a function of that invocation alone (its arguments and its
underlying outcome), independent of any earlier or later call. -/
theorem actions_stateless (pre post : List ActionInv) (inv : ActionInv) :
    runActions (pre ++ inv :: post) =
      runActions pre ++ step inv :: runActions post := by
  simp [runActions]

end UseExpenses
